import Mathlib

/-!
Shallow embedding of the Ecommerce repository's domain layer (Sequelize
models for categories, subcategories, products, carts, orders and order
lines), together with theorems settling the frozen claims about it.

Conventions of the embedding:
* a thrown `new Error(...)` is an `Except.error` carrying a `DomainError`
  constructor standing for the message;
* a JavaScript runtime fault (calling an undefined identifier or a
  property that does not exist) is an `Except.error` carrying
  `JsFault.typeError` / `JsFault.referenceError`;
* DECIMAL columns are modelled as `Rat`, INTEGER columns as `Int`,
  BOOLEAN as `Bool`, ENUM/`STRING` as `String`;
* the database is a record of lists of rows; `findByPk` is `List.find?`
  on the id column and `save`/`update` rewrite the matching row in place.
-/

/-- Errors thrown by the model layer (`throw new Error(...)` sites). -/
inductive DomainError where
  /-- "No hay suficiente stock para reducir la cantidad ..." -/
  | sinStock
  /-- "Estado no válido" -/
  | estadoNoValido
  /-- "No se puede cancelar el pedido" -/
  | noSePuedeCancelar
  /-- "La categoría asociada a esta subcategoría no existe" -/
  | categoriaNoExiste
  /-- "No se puede crear una subcategoría para una categoría desactivada" -/
  | categoriaDesactivada
  /-- "Stock insuficiente, solo hay ... unidades disponibles" -/
  | stockInsuficiente
deriving Repr, DecidableEq

/-- JavaScript runtime faults raised before any domain logic runs. -/
inductive JsFault where
  /-- calling a property that is `undefined` (or reading one off `null`) -/
  | typeError
  /-- referencing an identifier that is not bound in any scope -/
  | referenceError
deriving Repr, DecidableEq

/-- A row of the `productos` table.  The two `Producto` definitions in the
source contribute `subcategoriaId` (src/unnamed/part_001) and
`categoriaId` (src/unnamed/part_000, third segment); the associations in
src/backend/models/index.js use both foreign keys, so the row carries
both. -/
structure Producto where
  id : Int
  nombre : String
  precio : Rat
  stock : Int
  categoriaId : Int
  subcategoriaId : Int
  activo : Bool
deriving Repr, DecidableEq

/-- A row of the `categorias` table (src/unnamed/part_000). -/
structure Categoria where
  id : Int
  nombre : String
  activo : Bool
deriving Repr, DecidableEq

/-- A row of the `subcategorias` table (src/unnamed/part_000). -/
structure Subcategoria where
  id : Int
  nombre : String
  categoriaId : Int
  activo : Bool
deriving Repr, DecidableEq

/-- A row of the `carritos` table (cart items; first model of
src/backend/models/pedido.js and src/unnamed/part_003). -/
structure CarritoItem where
  id : Int
  usuarioId : Int
  productoId : Int
  cantidad : Int
  precioUnitario : Rat
deriving Repr, DecidableEq

/-- A row of the `pedidos` table (order; second model of
src/backend/models/pedido.js).  `estado` is the ENUM stored as a string. -/
structure Pedido where
  id : Int
  usuarioId : Int
  total : Rat
  estado : String
deriving Repr, DecidableEq

/-- A row of the `detallesPedidos` table (order line;
src/backend/models/detallePedido.js). -/
structure DetallePedido where
  pedidoId : Int
  productoId : Int
  cantidad : Int
  precioUnitario : Rat
  subtotal : Rat
deriving Repr, DecidableEq

/-! ## Producto instance methods (src/unnamed/part_001) -/

/-- `producto.prototype.HayStock = function (cantidad = 3) { return
this.stock >= cantidad; }` — the optional argument is modelled as an
`Option Int`, `none` meaning the call site passed no argument, in which
case the default `3` applies. -/
def Producto.HayStock (p : Producto) (cantidad : Option Int := none) : Bool :=
  p.stock ≥ cantidad.getD 3

/-- `producto.prototype.reducirStock` (src/unnamed/part_001 lines
267-273), exactly as written: it throws when `HayStock(cantidad)` is
TRUE, and otherwise subtracts and persists. -/
def Producto.reducirStock (p : Producto) (cantidad : Int) :
    Except DomainError Producto :=
  if p.HayStock (some cantidad) then
    .error .sinStock
  else
    .ok { p with stock := p.stock - cantidad }

/-- Modelled from the spec: `producto.prototype.aumentarStock` is
documented in src/unnamed/part_001 (the doc block before line 282) and
called by `pedido.prototype.cancelar`, but its body is absent from the
sources; spec §4.2 `increaseStock(product, quantity)`: "atomically adds;
used for restocking and for order-cancellation stock reversal". -/
def Producto.aumentarStock (p : Producto) (cantidad : Int) : Producto :=
  { p with stock := p.stock + cantidad }

/-! ## Claim C1 and C9 theorems -/

/-- A concrete product used for evaluating the stock methods. -/
def productoStock (s : Int) : Producto :=
  { id := 1, nombre := "Taza", precio := 10, stock := s,
    categoriaId := 1, subcategoriaId := 1, activo := true }

/-- C1: the claim says `reducirStock` fails exactly when
`quantity > stock` and that stock stays non-negative.  The code has the
condition inverted: with stock 5 and quantity 3 (sufficient stock) it
throws, and with stock 2 and quantity 5 (insufficient stock) it succeeds
and persists the negative stock -3. -/
theorem reducirStock_inverted_condition :
    (productoStock 5).reducirStock 3 = .error .sinStock ∧
    (productoStock 2).reducirStock 5 = .ok (productoStock (-3)) ∧
    ((productoStock 2).reducirStock 5).toOption.map Producto.stock
      = some (-3) := by
  refine ⟨rfl, rfl, rfl⟩

/-- C9: called without a quantity argument, `HayStock` defaults the
quantity to 3, so it returns `stock ≥ 3`; in particular a product with
stock 1 or stock 2 is reported as unavailable. -/
theorem hayStock_default_three (p : Producto) :
    (p.HayStock none = decide (p.stock ≥ 3)) ∧
    ((productoStock 1).HayStock none = false) ∧
    ((productoStock 2).HayStock none = false) := by
  refine ⟨?_, rfl, rfl⟩
  simp [Producto.HayStock, Option.getD]

/-! ## Pedido instance methods (src/backend/models/pedido.js, second model) -/

/-- The `estadosValidos` list of `pedido.prototype.cambiarEstado`
(src/backend/models/pedido.js lines 560-566). -/
def estadosValidos : List String :=
  ["pendiente", "pagado", "enviado", "entregado", "cancelado"]

/-- `pedido.prototype.cambiarEstado` (lines 559-572): it only checks that
the new status is a member of `estadosValidos`; any member is then
assigned and saved.  (The `AfterUpdate` hook of the model is spelled with
a capital A, which is not a Sequelize hook name, so no timestamp logic
runs on save.) -/
def Pedido.cambiarEstado (p : Pedido) (nuevoEstado : String) :
    Except DomainError Pedido :=
  if estadosValidos.contains nuevoEstado then
    .ok { p with estado := nuevoEstado }
  else
    .error .estadoNoValido

/-- `pedido.prototype.puedeSerCancelado` (lines 578-580). -/
def Pedido.puedeSerCancelado (p : Pedido) : Bool :=
  ["pendiente", "pagado"].contains p.estado

/-- The slice of the database that `pedido.prototype.cancelar` touches:
the `productos` table and the `detallesPedidos` table. -/
structure PedidoDB where
  productos : List Producto
  detalles : List DetallePedido
deriving Repr, DecidableEq

/-- `Producto.findByPk` on a table of rows. -/
def findProducto (ps : List Producto) (pid : Int) : Option Producto :=
  ps.find? (fun p => p.id = pid)

/-- `producto.save()`: rewrite the (first) row bearing the instance's id. -/
def guardarProducto (ps : List Producto) (q : Producto) : List Producto :=
  match ps with
  | [] => []
  | p :: rest => if p.id = q.id then q :: rest else p :: guardarProducto rest q

/-- The restock loop of `cancelar` (lines 601-607): for each order line,
`findByPk` the product and, when it exists, `aumentarStock(cantidad)`. -/
def devolverStock (ps : List Producto) : List DetallePedido → List Producto
  | [] => ps
  | d :: rest =>
    match findProducto ps d.productoId with
    | some p => devolverStock (guardarProducto ps (p.aumentarStock d.cantidad)) rest
    | none => devolverStock ps rest

/-- `pedido.prototype.cancelar` (lines 586-612): refuse unless
`puedeSerCancelado`; otherwise fetch this order's lines, return their
quantities to stock, then set the status to "cancelado" and save. -/
def cancelar (db : PedidoDB) (ped : Pedido) :
    Except DomainError (PedidoDB × Pedido) :=
  if !ped.puedeSerCancelado then
    .error .noSePuedeCancelar
  else
    let detalles := db.detalles.filter (fun d => d.pedidoId = ped.id)
    .ok ({ db with productos := devolverStock db.productos detalles },
         { ped with estado := "cancelado" })

/-- Total quantity the lines `ds` return to the product with id `pid`. -/
def restockAmount : List DetallePedido → Int → Int
  | [], _ => 0
  | d :: rest, pid =>
    (if d.productoId = pid then d.cantidad else 0) + restockAmount rest pid

/-! ### Lemmas about the restock loop -/

theorem findProducto_cons (p : Producto) (rest : List Producto) (pid : Int) :
    findProducto (p :: rest) pid =
      if p.id = pid then some p else findProducto rest pid := by
  by_cases h : p.id = pid <;> simp [findProducto, List.find?, h]

theorem findProducto_guardar_self (ps : List Producto) (q : Producto)
    (pid : Int) (hq : q.id = pid) (hfind : (findProducto ps pid).isSome) :
    findProducto (guardarProducto ps q) pid = some q := by
  induction ps with
  | nil => simp [findProducto] at hfind
  | cons p rest ih =>
    by_cases hp : p.id = pid
    · have hpq : p.id = q.id := by rw [hp, hq]
      rw [guardarProducto, if_pos hpq, findProducto_cons, if_pos hq]
    · have hpq : ¬ p.id = q.id := by rw [hq]; exact hp
      rw [guardarProducto, if_neg hpq, findProducto_cons, if_neg hp]
      rw [findProducto_cons, if_neg hp] at hfind
      exact ih hfind

theorem findProducto_guardar_other (ps : List Producto) (q : Producto)
    (pid : Int) (hq : ¬ q.id = pid) :
    findProducto (guardarProducto ps q) pid = findProducto ps pid := by
  induction ps with
  | nil => rfl
  | cons p rest ih =>
    by_cases hpq : p.id = q.id
    · have hp : ¬ p.id = pid := by rw [hpq]; exact hq
      rw [guardarProducto, if_pos hpq, findProducto_cons, if_neg hq,
        findProducto_cons, if_neg hp]
    · rw [guardarProducto, if_neg hpq, findProducto_cons, findProducto_cons]
      by_cases hp : p.id = pid
      · rw [if_pos hp, if_pos hp]
      · rw [if_neg hp, if_neg hp]
        exact ih

theorem devolverStock_stock (ds : List DetallePedido) (ps : List Producto)
    (pid : Int) (p : Producto) (hfind : findProducto ps pid = some p) :
    findProducto (devolverStock ps ds) pid =
      some { p with stock := p.stock + restockAmount ds pid } := by
  induction ds generalizing ps p with
  | nil =>
    simpa [devolverStock, restockAmount] using hfind
  | cons d rest ih =>
    have hpid : p.id = pid := by
      have := List.find?_some hfind
      simpa using this
    by_cases hd : d.productoId = pid
    · subst hd
      rw [devolverStock, hfind]
      have hq : (p.aumentarStock d.cantidad).id = d.productoId := hpid
      have hsome : (findProducto ps d.productoId).isSome := by rw [hfind]; rfl
      have h1 := findProducto_guardar_self ps (p.aumentarStock d.cantidad)
        d.productoId hq hsome
      rw [ih _ _ h1]
      simp only [restockAmount, if_pos rfl, Producto.aumentarStock]
      congr 2
      rw [if_pos trivial]
      ring
    · rw [devolverStock]
      cases hfd : findProducto ps d.productoId with
      | none =>
        rw [ih _ _ hfind]
        simp [restockAmount, hd]
      | some pd =>
        have hpd : pd.id = d.productoId := by
          have := List.find?_some hfd
          simpa using this
        have hq : ¬ (pd.aumentarStock d.cantidad).id = pid := by
          simpa [Producto.aumentarStock, hpd] using hd
        have h1 := findProducto_guardar_other ps (pd.aumentarStock d.cantidad)
          pid hq
        rw [hfind] at h1
        rw [ih _ _ h1]
        simp [restockAmount, hd]

/-! ## Claim C3 and C4 theorems -/

/-- A concrete order in a given state, for evaluating the methods. -/
def pedidoEn (estado : String) : Pedido :=
  { id := 7, usuarioId := 2, total := 25, estado := estado }

/-- C3 counterexample: the claim says `cambiarEstado "entregado"` on a
"cancelado" order fails with `InvalidState` and leaves the status
unchanged.  In the code the call succeeds and sets the status to
"entregado", because `cambiarEstado` only checks membership of the new
value in `estadosValidos` and never consults the current status. -/
theorem cambiarEstado_cancelado_entregado_succeeds :
    (pedidoEn "cancelado").cambiarEstado "entregado"
      = .ok (pedidoEn "entregado") := by
  rfl

/-- C3 amended: `cambiarEstado` permits every transition whose target is
one of the five declared statuses — including "entregado" on a
"cancelado" order — updating the status and saving; only a string outside
`estadosValidos` fails (with "Estado no válido"), leaving the status
unchanged. -/
theorem cambiarEstado_membership_only (p : Pedido) (s : String) :
    (estadosValidos.contains s = true →
      p.cambiarEstado s = .ok { p with estado := s }) ∧
    (estadosValidos.contains s = false →
      p.cambiarEstado s = .error .estadoNoValido) := by
  constructor <;> intro h <;> unfold Pedido.cambiarEstado <;> rw [h] <;> simp

/-- Witness for `cambiarEstado_membership_only` at concrete inputs. -/
theorem cambiarEstado_membership_only_witness :
    (pedidoEn "cancelado").cambiarEstado "entregado"
        = .ok { pedidoEn "cancelado" with estado := "entregado" } ∧
    (pedidoEn "cancelado").cambiarEstado "reembolsado"
        = .error .estadoNoValido :=
  ⟨(cambiarEstado_membership_only (pedidoEn "cancelado") "entregado").1 (by decide),
   (cambiarEstado_membership_only (pedidoEn "cancelado") "reembolsado").2 (by decide)⟩

/-- C4: `cancelar` succeeds exactly on orders whose status passes
`puedeSerCancelado` (that is, "pendiente" or "pagado").  On success every
product present in the table ends with its stock increased by the total
quantity this order's lines hold for it (zero for uninvolved products),
and the order's status becomes "cancelado".  On any other status it
throws "No se puede cancelar el pedido", returning no updated state, so
stock and status stay as they were.  (`aumentarStock` is modelled from
the spec, its body being absent from the sources.) -/
theorem cancelar_spec (db : PedidoDB) (ped : Pedido) :
    (ped.puedeSerCancelado
        = (decide (ped.estado = "pendiente") || decide (ped.estado = "pagado"))) ∧
    (ped.puedeSerCancelado = false →
      cancelar db ped = .error .noSePuedeCancelar) ∧
    (ped.puedeSerCancelado = true →
      ∃ db' ped', cancelar db ped = .ok (db', ped') ∧
        ped'.estado = "cancelado" ∧ ped'.id = ped.id ∧
        ∀ pid p, findProducto db.productos pid = some p →
          findProducto db'.productos pid =
            some { p with stock := p.stock +
                            restockAmount
                              (db.detalles.filter
                                (fun d => d.pedidoId = ped.id)) pid }) := by
  refine ⟨?_, ?_, ?_⟩
  · simp [Pedido.puedeSerCancelado, List.contains]
  · intro h
    simp [cancelar, h]
  · intro h
    refine ⟨{ db with productos := devolverStock db.productos
                        (db.detalles.filter (fun d => d.pedidoId = ped.id)) },
            { ped with estado := "cancelado" }, ?_, rfl, rfl, ?_⟩
    · unfold cancelar
      rw [h]
      rfl
    · intro pid p hfind
      exact devolverStock_stock _ db.productos pid p hfind

/-- Concrete database for the `cancelar_spec` witness: one product with
stock 4 and one order line of quantity 2 for order 7. -/
def dbCancelar : PedidoDB :=
  { productos := [productoStock 4],
    detalles := [{ pedidoId := 7, productoId := 1, cantidad := 2,
                   precioUnitario := 10, subtotal := 20 }] }

/-- Witness for `cancelar_spec`: cancelling the "pendiente" order 7
restores the line quantity (stock 4 becomes 6) and sets the status to
"cancelado"; cancelling the same order once "enviado" fails. -/
theorem cancelar_spec_witness :
    (∃ db' ped', cancelar dbCancelar (pedidoEn "pendiente") = .ok (db', ped') ∧
      ped'.estado = "cancelado" ∧ ped'.id = (pedidoEn "pendiente").id ∧
      ∀ pid p, findProducto dbCancelar.productos pid = some p →
        findProducto db'.productos pid =
          some { p with stock := p.stock +
                          restockAmount
                            (dbCancelar.detalles.filter
                              (fun d => d.pedidoId = (pedidoEn "pendiente").id))
                            pid }) ∧
    cancelar dbCancelar (pedidoEn "enviado") = .error .noSePuedeCancelar :=
  ⟨(cancelar_spec dbCancelar (pedidoEn "pendiente")).2.2 (by decide),
   (cancelar_spec dbCancelar (pedidoEn "enviado")).2.1 (by decide)⟩

/-! ## Subcategoria creation (src/unnamed/part_000, `beforeCreate` hook) -/

/-- `Categoria.findByPk` on a table of rows. -/
def findCategoria (cs : List Categoria) (cid : Int) : Option Categoria :=
  cs.find? (fun c => c.id = cid)

/-- The `beforeCreate` hook of the `Subcategoria` model (src/unnamed/
part_000 lines 270-286): fetch the parent category; throw when it does
not exist; throw when it is inactive. -/
def subcategoriaBeforeCreate (cs : List Categoria) (sub : Subcategoria) :
    Except DomainError Unit :=
  match findCategoria cs sub.categoriaId with
  | none => .error .categoriaNoExiste
  | some categoria =>
    if !categoria.activo then .error .categoriaDesactivada else .ok ()

/-- `Subcategoria.create`: run the `beforeCreate` hook, then insert the
row. -/
def crearSubcategoria (cs : List Categoria) (subs : List Subcategoria)
    (sub : Subcategoria) : Except DomainError (List Subcategoria) :=
  match subcategoriaBeforeCreate cs sub with
  | .error e => .error e
  | .ok _ => .ok (subs ++ [sub])

/-! ## Claim C7 theorems -/

/-- C7: creating a subcategory fails with the category-missing error
("NotFound") when the referenced category does not exist, fails with the
inactive-parent error when it exists but is inactive, and inserts the row
only when the parent exists and is active. -/
theorem crearSubcategoria_parent_checks (cs : List Categoria)
    (subs : List Subcategoria) (sub : Subcategoria) :
    (findCategoria cs sub.categoriaId = none →
      crearSubcategoria cs subs sub = .error .categoriaNoExiste) ∧
    (∀ c, findCategoria cs sub.categoriaId = some c → c.activo = false →
      crearSubcategoria cs subs sub = .error .categoriaDesactivada) ∧
    (∀ subs', crearSubcategoria cs subs sub = .ok subs' →
      subs' = subs ++ [sub] ∧
      ∃ c, findCategoria cs sub.categoriaId = some c ∧ c.activo = true) := by
  refine ⟨?_, ?_, ?_⟩
  · intro h
    simp [crearSubcategoria, subcategoriaBeforeCreate, h]
  · intro c hc hact
    simp [crearSubcategoria, subcategoriaBeforeCreate, hc, hact]
  · intro subs' h
    unfold crearSubcategoria subcategoriaBeforeCreate at h
    cases hfind : findCategoria cs sub.categoriaId with
    | none => rw [hfind] at h; exact absurd h (by simp)
    | some c =>
      rw [hfind] at h
      cases hact : c.activo with
      | false => simp [hact] at h
      | true =>
        simp only [hact, Bool.not_true, Bool.false_eq_true, if_false,
          Except.ok.injEq] at h
        exact ⟨h.symm, c, rfl, hact⟩

/-- Concrete catalog for the C7 witness: category 1 active, category 2
inactive, category 3 absent. -/
def categoriasC7 : List Categoria :=
  [{ id := 1, nombre := "Hogar", activo := true },
   { id := 2, nombre := "Ropa", activo := false }]

/-- A subcategory row aimed at the given parent category. -/
def subcatHacia (cid : Int) : Subcategoria :=
  { id := 10, nombre := "Tazas", categoriaId := cid, activo := true }

/-- Witness for `crearSubcategoria_parent_checks` at concrete inputs:
parent 3 is missing, parent 2 is inactive, parent 1 accepts the row. -/
theorem crearSubcategoria_parent_checks_witness :
    crearSubcategoria categoriasC7 [] (subcatHacia 3)
        = .error .categoriaNoExiste ∧
    crearSubcategoria categoriasC7 [] (subcatHacia 2)
        = .error .categoriaDesactivada ∧
    ([subcatHacia 1] = [] ++ [subcatHacia 1] ∧
      ∃ c, findCategoria categoriasC7 (subcatHacia 1).categoriaId = some c ∧
        c.activo = true) :=
  ⟨(crearSubcategoria_parent_checks categoriasC7 [] (subcatHacia 3)).1 (by decide),
   (crearSubcategoria_parent_checks categoriasC7 [] (subcatHacia 2)).2.1
     { id := 2, nombre := "Ropa", activo := false } (by decide) (by decide),
   (crearSubcategoria_parent_checks categoriasC7 [] (subcatHacia 1)).2.2
     [subcatHacia 1] rfl⟩

/-! ## Usuario model (src/unnamed/part_002) -/

/-- A JavaScript attribute value as stored on a model instance. -/
inductive JsValue where
  | vInt (n : Int)
  | vStr (s : String)
  | vBool (b : Bool)
  | vNull
deriving Repr, DecidableEq

/-- A row of the `usuarios` table. -/
structure Usuario where
  id : Int
  nombre : String
  email : String
  /-- the `contraseña` attribute (the bcrypt password hash) -/
  contrasena : String
  rol : String
  telefono : Option String
  direccion : Option String
  activo : Bool
deriving Repr, DecidableEq

/-- `this.get()`: all attributes of the instance as a key-value object,
the password hash included. -/
def Usuario.get (u : Usuario) : List (String × JsValue) :=
  [("id", .vInt u.id),
   ("nombre", .vStr u.nombre),
   ("email", .vStr u.email),
   ("contraseña", .vStr u.contrasena),
   ("rol", .vStr u.rol),
   ("telefono", match u.telefono with | some t => .vStr t | none => .vNull),
   ("direccion", match u.direccion with | some d => .vStr d | none => .vNull),
   ("activo", .vBool u.activo)]

/-- `Usuario.prototype.toJSON` (src/unnamed/part_002 lines 208-212): copy
`this.get()` and delete the `contraseña` key. -/
def Usuario.toJSON (u : Usuario) : List (String × JsValue) :=
  u.get.filter (fun kv => !(kv.1 == "contraseña"))

/-! ## Claim C10 theorem -/

/-- C10: the serialized public view of a user never contains the
`contraseña` key, and it is independent of the stored password hash: a
user record with the password replaced by any other string serializes to
exactly the same output. -/
theorem toJSON_excludes_password (u : Usuario) (c : String) :
    ("contraseña" ∉ (u.toJSON).map Prod.fst) ∧
    Usuario.toJSON { u with contrasena := c } = u.toJSON := by
  constructor
  · simp [Usuario.toJSON, Usuario.get]
  · rfl

/-! ## Categoria deactivation cascade (src/unnamed/part_000 `afterUpdate`,
src/backend/controllers/categoria.controller.js `toggleCategoria`) -/

/-- The catalog slice of the database. -/
structure CatDB where
  categorias : List Categoria
  subcategorias : List Subcategoria
  productos : List Producto
deriving Repr, DecidableEq

/-- The `afterUpdate` hook of the `Subcategoria` model: when the
subcategory's `activo` changed to false, every product whose
`subcategoriaId` is this subcategory is updated to `activo: false`. -/
def subcategoriaAfterUpdate (ps : List Producto) (sub : Subcategoria)
    (cambioAFalse : Bool) : List Producto :=
  if cambioAFalse then
    ps.map (fun p =>
      if p.subcategoriaId = sub.id then { p with activo := false } else p)
  else ps

/-- One iteration of the subcategory loop in the `Categoria` model's
`afterUpdate` hook (src/unnamed/part_000 lines 93-114): update the
snapshot subcategory `s` to `activo: false` (which fires the
`Subcategoria` hook when `s` was active), then — still inside the loop —
fetch and deactivate every product whose `categoriaId` is this
category. -/
def categoriaCascadeStep (catId : Int) (db : CatDB) (s : Subcategoria) :
    CatDB :=
  let subs' := db.subcategorias.map (fun t =>
    if t.id = s.id then { t with activo := false } else t)
  let ps1 := subcategoriaAfterUpdate db.productos s s.activo
  let ps2 := ps1.map (fun p =>
    if p.categoriaId = catId then { p with activo := false } else p)
  { db with subcategorias := subs', productos := ps2 }

/-- The `afterUpdate` hook of the `Categoria` model (src/unnamed/part_000
lines 78-124): when `activo` changed to false, enumerate this category's
subcategories and run the loop body for each; the product-deactivation
query runs only inside that loop.  When `activo` changed to true nothing
happens. -/
def categoriaAfterUpdate (db : CatDB) (cat : Categoria)
    (cambioAFalse : Bool) : CatDB :=
  if cambioAFalse then
    (db.subcategorias.filter (fun s => s.categoriaId = cat.id)).foldl
      (categoriaCascadeStep cat.id) db
  else db

/-- `toggleCategoria` (src/backend/controllers/categoria.controller.js
lines 286-330): find the category, flip `activo`, save — the save fires
the `Categoria` `afterUpdate` hook with `changed("activo")` true.
`none` models the 404 path. -/
def toggleCategoria (db : CatDB) (cid : Int) : Option CatDB :=
  match findCategoria db.categorias cid with
  | none => none
  | some cat =>
    let cat' : Categoria := { cat with activo := !cat.activo }
    let db1 : CatDB := { db with
      categorias := db.categorias.map
                      (fun c => if c.id = cid then cat' else c) }
    some (categoriaAfterUpdate db1 cat' (!cat'.activo))

/-! ## Claim C5 theorem -/

/-- Catalog with category 1 active, NO subcategories, and one active
product associated with category 1. -/
def dbSinSubcategorias : CatDB :=
  { categorias := [{ id := 1, nombre := "Hogar", activo := true }],
    subcategorias := [],
    productos := [productoStock 4] }

/-- The same catalog, with one active subcategory under category 1. -/
def dbConSubcategoria : CatDB :=
  { categorias := [{ id := 1, nombre := "Hogar", activo := true }],
    subcategorias := [{ id := 1, nombre := "Tazas", categoriaId := 1,
                        activo := true }],
    productos := [productoStock 4] }

/-- C5: deactivating a category is claimed to deactivate all its
subcategories and all its associated products.  The product-deactivation
query sits inside the per-subcategory loop, so with zero subcategories
the associated product stays active (first conjunct), while with one
subcategory the same product is deactivated (second conjunct), and
reactivating an inactive category touches nothing (third conjunct). -/
theorem toggleCategoria_producto_queda_activo :
    (toggleCategoria dbSinSubcategorias 1 = some
      { categorias := [{ id := 1, nombre := "Hogar", activo := false }],
        subcategorias := [],
        productos := [productoStock 4] }) ∧
    ((toggleCategoria dbSinSubcategorias 1).map
        (fun db => db.productos.map Producto.activo) = some [true]) ∧
    ((toggleCategoria dbConSubcategoria 1).map
        (fun db => db.productos.map Producto.activo) = some [false]) ∧
    (toggleCategoria
        { dbSinSubcategorias with
            categorias := [{ id := 1, nombre := "Hogar", activo := false }] } 1
      = some
      { categorias := [{ id := 1, nombre := "Hogar", activo := true }],
        subcategorias := [],
        productos := [productoStock 4] }) := by
  refine ⟨by decide, by decide, by decide, by decide⟩

/-! ## DetallePedido creation (src/backend/models/detallePedido.js) -/

/-- The `beforeCreate` hook of the `detallePedido` model (lines 143-147):
it only computes `subtotal = parseFloat(precioUnitario) * cantidad`; no
product lookup, no active check, no stock check. -/
def detalleBeforeCreate (d : DetallePedido) : DetallePedido :=
  { d with subtotal := d.precioUnitario * (d.cantidad : Rat) }

/-- `detallePedido.crearDesdeCarrito(pedidoID, itemsCarrito)` (lines
181-193): for each cart item, unconditionally create one order line
carrying the cart's quantity and snapshot price; return the created
lines.  The products table is never read or written. -/
def crearDesdeCarrito (db : PedidoDB) (pedidoID : Int)
    (itemsCarrito : List CarritoItem) : PedidoDB × List DetallePedido :=
  itemsCarrito.foldl
    (fun acc item =>
      let detalle := detalleBeforeCreate
        { pedidoId := pedidoID, productoId := item.productoId,
          cantidad := item.cantidad, precioUnitario := item.precioUnitario,
          subtotal := 0 }
      ({ acc.1 with detalles := acc.1.detalles ++ [detalle] },
       acc.2 ++ [detalle]))
    (db, [])

/-! ## Claim C2 theorem -/

/-- A cart item of quantity 5 for product 1 at snapshot price 10. -/
def itemExcedido : CarritoItem :=
  { id := 1, usuarioId := 2, productoId := 1, cantidad := 5,
    precioUnitario := 10 }

/-- C2: the claim says checkout is all-or-nothing — with a line item
whose quantity (5) exceeds the product's stock (2), no order line may
exist afterwards and, on success, stock must be decremented.  The code
creates the order line anyway and leaves the stock untouched: starting
from a table with product 1 at stock 2, `crearDesdeCarrito` returns the
new line and an unchanged products table. -/
theorem crearDesdeCarrito_sin_chequeo_de_stock :
    crearDesdeCarrito { productos := [productoStock 2], detalles := [] } 1
        [itemExcedido]
      = ({ productos := [productoStock 2],
           detalles := [{ pedidoId := 1, productoId := 1, cantidad := 5,
                          precioUnitario := 10, subtotal := 50 }] },
         [{ pedidoId := 1, productoId := 1, cantidad := 5,
            precioUnitario := 10, subtotal := 50 }]) := by
  simp only [crearDesdeCarrito, detalleBeforeCreate, itemExcedido, List.foldl]
  norm_num

/-! ## Carrito instance methods (src/backend/models/pedido.js, first
model) -/

/-- The identifiers bound in the JavaScript global scope that the cart
methods reach for: `parseFloat` exists; nothing else does.  Modelled as a
name-indexed lookup so that the misspelled call sites resolve the same
way the runtime would. -/
def globalFloatFn (name : String) : Option (Rat → Rat) :=
  if name = "parseFloat" then some (fun x => x) else none

/-- `carrito.prototype.calcularSubtotal` (src/backend/models/pedido.js
lines 256-258): `return parseFloa(this.precioUnitario) * this.cantidad` —
the call names `parseFloa`, which is unbound, so every call raises a
ReferenceError before any arithmetic. -/
def CarritoItem.calcularSubtotal (item : CarritoItem) : Except JsFault Rat :=
  match globalFloatFn "parseFloa" with
  | none => .error .referenceError
  | some f => .ok (f item.precioUnitario * (item.cantidad : Rat))

/-- `carrito.calcularTotalCarrito(usuarioId)` (lines 303-311): fetch the
user's cart rows and sum `calcularSubtotal()` over them, starting from
0. -/
def calcularTotalCarrito (carritos : List CarritoItem) (usuarioId : Int) :
    Except JsFault Rat :=
  (carritos.filter (fun i => i.usuarioId = usuarioId)).foldlM
    (fun total item => item.calcularSubtotal.map (fun s => total + s)) 0

/-! ## Claim C6 theorem -/

/-- A cart row for user 7: 2 units at snapshot price 10. -/
def filaCarrito : CarritoItem :=
  { id := 1, usuarioId := 7, productoId := 1, cantidad := 2,
    precioUnitario := 10 }

/-- C6: the claim says `cartTotal` returns the sum of
unitPrice × quantity over the user's rows for ANY cart state.  Only the
empty cart returns a value (0); as soon as the user has one row, the sum
calls `calcularSubtotal`, whose body references the unbound identifier
`parseFloa`, so the whole call raises a ReferenceError instead of
returning 20. -/
theorem calcularTotalCarrito_referencia_parseFloa :
    calcularTotalCarrito [] 7 = .ok 0 ∧
    filaCarrito.calcularSubtotal = .error .referenceError ∧
    calcularTotalCarrito [filaCarrito] 7 = .error .referenceError := by
  refine ⟨rfl, rfl, rfl⟩

/-! ## `actualizarCantidad` (src/backend/models/pedido.js lines 265-277) -/

/-- Errors surfacing from the cart mutation path: a domain `throw` or a
JavaScript runtime fault. -/
inductive CarritoError where
  | fault (f : JsFault)
  | dominio (e : DomainError)
deriving Repr, DecidableEq

/-- The instance methods defined on `producto.prototype`
(src/unnamed/part_001): the stock predicate is registered under the name
`HayStock` — capital H — and under no other name.  Call sites are
resolved against this table the way JavaScript property lookup would. -/
def productoProtoMetodo (name : String) : Option (Producto → Int → Bool) :=
  if name = "HayStock" then some (fun p c => p.HayStock (some c)) else none

/-- `carrito.prototype.actualizarCantidad(nuevaCantidad)`: `findByPk` the
product, call `prducto.hayStock(nuevaCantidad)` — lowercase h — and throw
"Stock insuficiente" when it is false, else assign the new quantity and
save.  Property lookup of `hayStock` is modelled through
`productoProtoMetodo`; a `none` product or a `none` method raises a
TypeError at the call. -/
def CarritoItem.actualizarCantidad (ps : List Producto) (item : CarritoItem)
    (nuevaCantidad : Int) : Except CarritoError CarritoItem :=
  match findProducto ps item.productoId with
  | none => .error (.fault .typeError)
  | some prducto =>
    match productoProtoMetodo "hayStock" with
    | none => .error (.fault .typeError)
    | some hay =>
      if !hay prducto nuevaCantidad then
        .error (.dominio .stockInsuficiente)
      else
        .ok { item with cantidad := nuevaCantidad }

/-! ## Claim C8 theorem -/

/-- C8: the claim says `actualizarCantidad` re-validates the new quantity
against current stock and on success updates only the quantity.  The
method calls `prducto.hayStock(...)`, but the prototype registers the
predicate as `HayStock`; the lookup misses, so every call — for every
product table, item and quantity — raises a TypeError before any
validation or update. -/
theorem actualizarCantidad_siempre_typeError (ps : List Producto)
    (item : CarritoItem) (nuevaCantidad : Int) :
    item.actualizarCantidad ps nuevaCantidad = .error (.fault .typeError) := by
  unfold CarritoItem.actualizarCantidad
  cases h : findProducto ps item.productoId with
  | none => rfl
  | some prducto => rfl
